import Mathlib

/-!
Verification of the type-erased polymorphic allocator handle
(`src/vtable.rs`, `src/lib.rs`, `src/allocator.rs`, `src/traits.rs`).

Shallow embedding conventions:
* Machine memory holding wrapped allocator values is a typed heap
  `Heap A : Ptr → Option A`; a raw pointer is a `Ptr := Nat`.
* A concrete allocator type `A` together with its `Allocator` trait impl is an
  `AllocatorImpl A`: each trait method takes the allocator value and returns its
  result together with the (interior-mutated) new allocator value.
  `Layout::new::<A>()` is passed explicitly as a `Layout` argument `lA`, and the
  `Clone` impl as a function `cl : A → A`.
* Dereferencing an invalid pointer is undefined behaviour in the source; such
  operations return `Option`, with `none` standing for UB.
* The leftover debug print in `default_delete` is modelled as an `Event`.
-/

namespace PolyAlloc

/-- A raw (thin) pointer, `*const ()` / `NonNull<()>` in the source. -/
abbrev Ptr := Nat

/-- `core::alloc::Layout`: a size and an alignment. -/
structure Layout where
  size : Nat
  align : Nat
deriving DecidableEq, Repr

/-- A successful allocation: pointer plus usable size (`NonNull<[u8]>`). -/
structure Block where
  ptr : Ptr
  size : Nat
deriving DecidableEq, Repr

/-- `core::alloc::AllocError`: the single payload-free failure kind. -/
inductive AllocError where
  | allocError
deriving DecidableEq, Repr

/-- Result of a fallible capability call: `Result<NonNull<[u8]>, AllocError>`. -/
abbrev AllocResult := Except AllocError Block

/-- Typed view of raw memory holding values of the wrapped allocator type. -/
def Heap (A : Type) := Ptr → Option A

/-- `ptr::write`: store a value at an address (overwriting whatever was there). -/
def Heap.write {A : Type} (h : Heap A) (p : Ptr) (a : A) : Heap A :=
  fun q => if q = p then some a else h q

/-- Remove a cell: the storage behind `p` has been deallocated. -/
def Heap.erase {A : Type} (h : Heap A) (p : Ptr) : Heap A :=
  fun q => if q = p then none else h q

@[simp]
theorem Heap.write_same {A : Type} (h : Heap A) (p : Ptr) (a : A) :
    Heap.write h p a p = some a := by
  simp [Heap.write]

@[simp]
theorem Heap.write_other {A : Type} (h : Heap A) (p q : Ptr) (a : A) (hq : q ≠ p) :
    Heap.write h p a q = h q := by
  simp [Heap.write, hq]

/-- The `Allocator` trait impl of a concrete allocator type `A`
(`std::alloc::Allocator`). The methods take `&self` in Rust and mutate only
through interior mutability; here each method returns the updated value. -/
structure AllocatorImpl (A : Type) where
  allocate : A → Layout → AllocResult × A
  allocateZeroed : A → Layout → AllocResult × A
  deallocate : A → Ptr → Layout → A
  grow : A → Ptr → Layout → Layout → AllocResult × A
  growZeroed : A → Ptr → Layout → Layout → AllocResult × A
  shrink : A → Ptr → Layout → Layout → AllocResult × A

/-- Observable side effects other than allocator-state changes. -/
inductive Event where
  | println (s : String)
deriving DecidableEq, Repr

/-- Result of a vtable `delete` call: the memory afterwards, the final state of
the moved-out allocator just before it is dropped (`none` when nothing is
dropped), and any other observable events. -/
structure DeleteOut (A : Type) where
  heap : Heap A
  dropped : Option A
  events : List Event

/-- Result of a vtable `clone` call: either a new data pointer (with the memory
afterwards), or the process-fatal `handle_alloc_error` diverging with the
reported layout. -/
inductive CloneOut (A : Type) where
  | ok (heap : Heap A) (ptr : Ptr)
  | fatalOOM (l : Layout)

-- Forwarding functions generated by the `allocator_fwd!` macro in vtable.rs:
-- each casts the erased pointer to `A`, dereferences it and invokes the
-- capability directly on the pointed-to value; interior mutation lands back
-- in the same cell.

/-- `allocate::<A>` forwarder (vtable.rs, `allocator_fwd!`). -/
def fwdAllocate {A : Type} (ra : AllocatorImpl A) (heap : Heap A) (this : Ptr)
    (layout : Layout) : Option (AllocResult × Heap A) :=
  (heap this).map fun a =>
    let r := ra.allocate a layout
    (r.1, heap.write this r.2)

/-- `allocate_zeroed::<A>` forwarder (vtable.rs, `allocator_fwd!`). -/
def fwdAllocateZeroed {A : Type} (ra : AllocatorImpl A) (heap : Heap A) (this : Ptr)
    (layout : Layout) : Option (AllocResult × Heap A) :=
  (heap this).map fun a =>
    let r := ra.allocateZeroed a layout
    (r.1, heap.write this r.2)

/-- `deallocate::<A>` forwarder (vtable.rs, `allocator_fwd!`). -/
def fwdDeallocate {A : Type} (ra : AllocatorImpl A) (heap : Heap A) (this : Ptr)
    (ptr : Ptr) (layout : Layout) : Option (Heap A) :=
  (heap this).map fun a => heap.write this (ra.deallocate a ptr layout)

/-- `grow::<A>` forwarder (vtable.rs, `allocator_fwd!`). -/
def fwdGrow {A : Type} (ra : AllocatorImpl A) (heap : Heap A) (this : Ptr)
    (ptr : Ptr) (oldLayout newLayout : Layout) : Option (AllocResult × Heap A) :=
  (heap this).map fun a =>
    let r := ra.grow a ptr oldLayout newLayout
    (r.1, heap.write this r.2)

/-- `grow_zeroed::<A>` forwarder (vtable.rs, `allocator_fwd!`). -/
def fwdGrowZeroed {A : Type} (ra : AllocatorImpl A) (heap : Heap A) (this : Ptr)
    (ptr : Ptr) (oldLayout newLayout : Layout) : Option (AllocResult × Heap A) :=
  (heap this).map fun a =>
    let r := ra.growZeroed a ptr oldLayout newLayout
    (r.1, heap.write this r.2)

/-- `shrink::<A>` forwarder (vtable.rs, `allocator_fwd!`). -/
def fwdShrink {A : Type} (ra : AllocatorImpl A) (heap : Heap A) (this : Ptr)
    (ptr : Ptr) (oldLayout newLayout : Layout) : Option (AllocResult × Heap A) :=
  (heap this).map fun a =>
    let r := ra.shrink a ptr oldLayout newLayout
    (r.1, heap.write this r.2)

/-- `default_delete::<A>` (vtable.rs): moves the allocator out of its place
(`ptr::read`), deallocates the backing memory via the moved value's own
`deallocate` with `Layout::new::<A>()`, drops the allocator — and executes the
leftover `println!("Dropped allocator!")`. -/
def default_delete {A : Type} (ra : AllocatorImpl A) (lA : Layout)
    (heap : Heap A) (this : Ptr) : Option (DeleteOut A) :=
  (heap this).map fun a =>
    ⟨heap.erase this, some (ra.deallocate a this lA), [Event.println "Dropped allocator!"]⟩

/-- `default_clone::<A>` (vtable.rs): allocates storage for one `A` through the
pointed-to allocator itself, on failure invokes `handle_alloc_error` (fatal),
on success writes a clone of the (post-allocate) value into the new storage and
returns the new address. -/
def default_clone {A : Type} (ra : AllocatorImpl A) (cl : A → A) (lA : Layout)
    (heap : Heap A) (this : Ptr) : Option (CloneOut A) :=
  (heap this).map fun a =>
    let r := ra.allocate a lA
    match r.1 with
    | .error _ => .fatalOOM lA
    | .ok blk => .ok ((heap.write this r.2).write blk.ptr (cl r.2)) blk.ptr

/-- `ref_delete` (vtable.rs): the fixed, non-generic no-op deleter shared by
all borrowed vtables. It never touches memory, drops nothing and has no
observable effect. -/
def ref_delete {A : Type} (heap : Heap A) (_this : Ptr) : Option (DeleteOut A) :=
  some ⟨heap, none, []⟩

/-- `ref_clone::<A>` (vtable.rs): returns the input address unchanged; no
dereference, no allocation, no cloning. -/
def ref_clone {A : Type} (heap : Heap A) (this : Ptr) : Option (CloneOut A) :=
  some (.ok heap this)

/-- `RawPolyAllocVTable` (vtable.rs): six capability function pointers plus
`delete` and `clone`. -/
structure RawPolyAllocVTable (A : Type) where
  allocate : Heap A → Ptr → Layout → Option (AllocResult × Heap A)
  allocate_zeroed : Heap A → Ptr → Layout → Option (AllocResult × Heap A)
  deallocate : Heap A → Ptr → Ptr → Layout → Option (Heap A)
  grow : Heap A → Ptr → Ptr → Layout → Layout → Option (AllocResult × Heap A)
  grow_zeroed : Heap A → Ptr → Ptr → Layout → Layout → Option (AllocResult × Heap A)
  shrink : Heap A → Ptr → Ptr → Layout → Layout → Option (AllocResult × Heap A)
  delete : Heap A → Ptr → Option (DeleteOut A)
  clone : Heap A → Ptr → Option (CloneOut A)

/-- `RawPolyAllocVTable::owned::<A>()` (vtable.rs): the Owned dispatch table. -/
def RawPolyAllocVTable.owned {A : Type} (ra : AllocatorImpl A) (cl : A → A)
    (lA : Layout) : RawPolyAllocVTable A where
  allocate := fwdAllocate ra
  allocate_zeroed := fwdAllocateZeroed ra
  deallocate := fwdDeallocate ra
  grow := fwdGrow ra
  grow_zeroed := fwdGrowZeroed ra
  shrink := fwdShrink ra
  delete := default_delete ra lA
  clone := default_clone ra cl lA

/-- `RawPolyAllocVTable::borrowed::<A>()` (vtable.rs): the Borrowed dispatch
table; `delete` is the shared `ref_delete`, `clone` is `ref_clone`. -/
def RawPolyAllocVTable.borrowed {A : Type} (ra : AllocatorImpl A) :
    RawPolyAllocVTable A where
  allocate := fwdAllocate ra
  allocate_zeroed := fwdAllocateZeroed ra
  deallocate := fwdDeallocate ra
  grow := fwdGrow ra
  grow_zeroed := fwdGrowZeroed ra
  shrink := fwdShrink ra
  delete := ref_delete
  clone := ref_clone

-- The erased handle of lib.rs: `LocalPolyAllocator<'a>`.

/-- `LocalPolyAllocator` (lib.rs): an erased data pointer plus a reference to a
vtable. The lifetime `'a` and the `PhantomData` field have no runtime content. -/
structure LocalPolyAllocator (A : Type) where
  data : Ptr
  vtable : RawPolyAllocVTable A

/-- `LocalPolyAllocator::from_raw_parts` (lib.rs): reassembles a handle from a
data pointer and a vtable (caller-checked compatibility). -/
def LocalPolyAllocator.from_raw_parts {A : Type} (data : Ptr)
    (vtable : RawPolyAllocVTable A) : LocalPolyAllocator A :=
  ⟨data, vtable⟩

/-- `Drop for LocalPolyAllocator` (lib.rs): calls `(self.vtable.delete)(self.data)`. -/
def LocalPolyAllocator.drop {A : Type} (h : LocalPolyAllocator A) (heap : Heap A) :
    Option (DeleteOut A) :=
  h.vtable.delete heap h.data

/-- Outcome of handle duplication: a new handle, or the fatal
`handle_alloc_error` raised inside `default_clone`. -/
inductive HandleCloneOut (A : Type) where
  | ok (h : LocalPolyAllocator A) (heap : Heap A)
  | fatalOOM (l : Layout)

/-- `Clone for LocalPolyAllocator` (lib.rs): calls `(self.vtable.clone)(self.data)`
and reassembles with `from_raw_parts` using the same vtable. -/
def LocalPolyAllocator.clone {A : Type} (h : LocalPolyAllocator A) (heap : Heap A) :
    Option (HandleCloneOut A) :=
  (h.vtable.clone heap h.data).map fun
    | .ok heap1 p => .ok (LocalPolyAllocator.from_raw_parts p h.vtable) heap1
    | .fatalOOM l => .fatalOOM l

/-- `LocalPolyAllocator::try_owned` (lib.rs): allocate storage for one `A` from
the allocator itself with `Layout::new::<A>()` (the `?` operator propagates
failure), `ptr::write` the allocator into the storage, and assemble the handle
with the Owned vtable. -/
def LocalPolyAllocator.try_owned {A : Type} (ra : AllocatorImpl A) (cl : A → A)
    (lA : Layout) (heap : Heap A) (allocator : A) :
    Except AllocError (LocalPolyAllocator A) × Heap A :=
  let r := ra.allocate allocator lA
  match r.1 with
  | .error e => (.error e, heap)
  | .ok blk =>
      (.ok (LocalPolyAllocator.from_raw_parts blk.ptr (RawPolyAllocVTable.owned ra cl lA)),
        heap.write blk.ptr r.2)

/-- Outcome of infallible owned construction: a handle, or the fatal
`handle_alloc_error` with `Layout::new::<A>()`. There is no failure value. -/
inductive OwnedOut (A : Type) where
  | ok (h : LocalPolyAllocator A) (heap : Heap A)
  | fatalOOM (l : Layout)

/-- `LocalPolyAllocator::owned` (lib.rs): `try_owned`, with the error case turned
into `alloc::handle_alloc_error(Layout::new::<A>())` (fatal, non-returning). -/
def LocalPolyAllocator.owned {A : Type} (ra : AllocatorImpl A) (cl : A → A)
    (lA : Layout) (heap : Heap A) (allocator : A) : OwnedOut A :=
  match LocalPolyAllocator.try_owned ra cl lA heap allocator with
  | (.ok ret, heap1) => .ok ret heap1
  | (.error _, _) => .fatalOOM lA

/-- `LocalPolyAllocator::borrowed` (lib.rs): takes the address of an
externally-owned allocator and binds it to the Borrowed vtable; never fails,
touches no memory. -/
def LocalPolyAllocator.borrowed {A : Type} (ra : AllocatorImpl A) (p : Ptr) :
    LocalPolyAllocator A :=
  LocalPolyAllocator.from_raw_parts p (RawPolyAllocVTable.borrowed ra)

/-- `LocalPolyAllocator::into_raw_parts` (lib.rs): the body copies out the two
`Copy` fields — but `self` is a type with a `Drop` impl and is not forgotten,
so Rust drop glue runs on `self` when the function returns, invoking
`(self.vtable.delete)(self.data)`. The returned pair is paired here with the
delete call's outcome. -/
def LocalPolyAllocator.into_raw_parts {A : Type} (h : LocalPolyAllocator A)
    (heap : Heap A) :
    Option ((Ptr × RawPolyAllocVTable A) × Heap A × Option A × List Event) :=
  (h.vtable.delete heap h.data).map fun d => ((h.data, h.vtable), d.heap, d.dropped, d.events)

-- `Allocator for LocalPolyAllocator` (lib.rs): each method forwards through the
-- vtable with `self.data` as the erased pointer.

/-- `LocalPolyAllocator::allocate` (lib.rs `Allocator` impl). -/
def LocalPolyAllocator.allocate {A : Type} (h : LocalPolyAllocator A)
    (heap : Heap A) (layout : Layout) : Option (AllocResult × Heap A) :=
  h.vtable.allocate heap h.data layout

/-- `LocalPolyAllocator::allocate_zeroed` (lib.rs `Allocator` impl). -/
def LocalPolyAllocator.allocate_zeroed {A : Type} (h : LocalPolyAllocator A)
    (heap : Heap A) (layout : Layout) : Option (AllocResult × Heap A) :=
  h.vtable.allocate_zeroed heap h.data layout

/-- `LocalPolyAllocator::deallocate` (lib.rs `Allocator` impl). -/
def LocalPolyAllocator.deallocate {A : Type} (h : LocalPolyAllocator A)
    (heap : Heap A) (ptr : Ptr) (layout : Layout) : Option (Heap A) :=
  h.vtable.deallocate heap h.data ptr layout

/-- `LocalPolyAllocator::grow` (lib.rs `Allocator` impl). -/
def LocalPolyAllocator.grow {A : Type} (h : LocalPolyAllocator A)
    (heap : Heap A) (ptr : Ptr) (oldLayout newLayout : Layout) :
    Option (AllocResult × Heap A) :=
  h.vtable.grow heap h.data ptr oldLayout newLayout

/-- `LocalPolyAllocator::grow_zeroed` (lib.rs `Allocator` impl). -/
def LocalPolyAllocator.grow_zeroed {A : Type} (h : LocalPolyAllocator A)
    (heap : Heap A) (ptr : Ptr) (oldLayout newLayout : Layout) :
    Option (AllocResult × Heap A) :=
  h.vtable.grow_zeroed heap h.data ptr oldLayout newLayout

/-- `LocalPolyAllocator::shrink` (lib.rs `Allocator` impl). -/
def LocalPolyAllocator.shrink {A : Type} (h : LocalPolyAllocator A)
    (heap : Heap A) (ptr : Ptr) (oldLayout newLayout : Layout) :
    Option (AllocResult × Heap A) :=
  h.vtable.shrink heap h.data ptr oldLayout newLayout

-- The second generation of the handle, from allocator.rs:
-- `PolyAllocator<'a, Traits>`. The `Traits` marker is phantom data; it changes
-- only the trait bounds on the constructors, not any body.

namespace AllocatorRs

/-- `PolyAllocator<'a, Traits>` (allocator.rs): data pointer, vtable reference,
and two phantom fields. `Traits` is carried as a phantom type parameter. -/
structure PolyAllocator (Traits : Type) (A : Type) where
  data : Ptr
  vtable : RawPolyAllocVTable A

/-- `PolyAllocator::from_raw_parts` (allocator.rs). -/
def PolyAllocator.from_raw_parts {Traits A : Type} (data : Ptr)
    (vtable : RawPolyAllocVTable A) : PolyAllocator Traits A :=
  ⟨data, vtable⟩

/-- `PolyAllocator::into_raw_parts` (allocator.rs): same body as the lib.rs
version, with the same implicit drop of `self` invoking `vtable.delete`. -/
def PolyAllocator.into_raw_parts {Traits A : Type} (h : PolyAllocator Traits A)
    (heap : Heap A) :
    Option ((Ptr × RawPolyAllocVTable A) × Heap A × Option A × List Event) :=
  (h.vtable.delete heap h.data).map fun d => ((h.data, h.vtable), d.heap, d.dropped, d.events)

/-- `Drop for PolyAllocator` (allocator.rs): `(self.vtable.delete)(self.data)`. -/
def PolyAllocator.drop {Traits A : Type} (h : PolyAllocator Traits A)
    (heap : Heap A) : Option (DeleteOut A) :=
  h.vtable.delete heap h.data

/-- Outcome of duplication of an allocator.rs handle. -/
inductive PolyCloneOut (Traits : Type) (A : Type) where
  | ok (h : PolyAllocator Traits A) (heap : Heap A)
  | fatalOOM (l : Layout)

/-- `Clone for PolyAllocator` (allocator.rs): `(self.vtable.clone)(self.data)`
then `from_raw_parts` with the same vtable. -/
def PolyAllocator.clone {Traits A : Type} (h : PolyAllocator Traits A)
    (heap : Heap A) : Option (PolyCloneOut Traits A) :=
  (h.vtable.clone heap h.data).map fun
    | .ok heap1 p => .ok (PolyAllocator.from_raw_parts p h.vtable) heap1
    | .fatalOOM l => .fatalOOM l

/-- `PolyAllocator::try_owned_internal` (allocator.rs): identical body to
`LocalPolyAllocator::try_owned`. -/
def PolyAllocator.try_owned_internal {Traits A : Type} (ra : AllocatorImpl A)
    (cl : A → A) (lA : Layout) (heap : Heap A) (allocator : A) :
    Except AllocError (PolyAllocator Traits A) × Heap A :=
  let r := ra.allocate allocator lA
  match r.1 with
  | .error e => (.error e, heap)
  | .ok blk =>
      (.ok (PolyAllocator.from_raw_parts blk.ptr (RawPolyAllocVTable.owned ra cl lA)),
        heap.write blk.ptr r.2)

/-- Outcome of infallible owned construction of an allocator.rs handle. -/
inductive PolyOwnedOut (Traits : Type) (A : Type) where
  | ok (h : PolyAllocator Traits A) (heap : Heap A)
  | fatalOOM (l : Layout)

/-- `PolyAllocator::owned_internal` (allocator.rs): `try_owned_internal`, error
case turned into `handle_alloc_error(Layout::new::<A>())`. -/
def PolyAllocator.owned_internal {Traits A : Type} (ra : AllocatorImpl A)
    (cl : A → A) (lA : Layout) (heap : Heap A) (allocator : A) :
    PolyOwnedOut Traits A :=
  match PolyAllocator.try_owned_internal ra cl lA heap allocator with
  | (.ok ret, heap1) => .ok ret heap1
  | (.error _, _) => .fatalOOM lA

/-- `PolyAllocator::borrowed_internal` (allocator.rs). -/
def PolyAllocator.borrowed_internal {Traits A : Type} (ra : AllocatorImpl A)
    (p : Ptr) : PolyAllocator Traits A :=
  PolyAllocator.from_raw_parts p (RawPolyAllocVTable.borrowed ra)

/-- `PolyAllocator::allocate` (allocator.rs `Allocator` impl). -/
def PolyAllocator.allocate {Traits A : Type} (h : PolyAllocator Traits A)
    (heap : Heap A) (layout : Layout) : Option (AllocResult × Heap A) :=
  h.vtable.allocate heap h.data layout

/-- `PolyAllocator::allocate_zeroed` (allocator.rs `Allocator` impl). -/
def PolyAllocator.allocate_zeroed {Traits A : Type} (h : PolyAllocator Traits A)
    (heap : Heap A) (layout : Layout) : Option (AllocResult × Heap A) :=
  h.vtable.allocate_zeroed heap h.data layout

/-- `PolyAllocator::deallocate` (allocator.rs `Allocator` impl). -/
def PolyAllocator.deallocate {Traits A : Type} (h : PolyAllocator Traits A)
    (heap : Heap A) (ptr : Ptr) (layout : Layout) : Option (Heap A) :=
  h.vtable.deallocate heap h.data ptr layout

/-- `PolyAllocator::grow` (allocator.rs `Allocator` impl). -/
def PolyAllocator.grow {Traits A : Type} (h : PolyAllocator Traits A)
    (heap : Heap A) (ptr : Ptr) (oldLayout newLayout : Layout) :
    Option (AllocResult × Heap A) :=
  h.vtable.grow heap h.data ptr oldLayout newLayout

/-- `PolyAllocator::grow_zeroed` (allocator.rs `Allocator` impl). -/
def PolyAllocator.grow_zeroed {Traits A : Type} (h : PolyAllocator Traits A)
    (heap : Heap A) (ptr : Ptr) (oldLayout newLayout : Layout) :
    Option (AllocResult × Heap A) :=
  h.vtable.grow_zeroed heap h.data ptr oldLayout newLayout

/-- `PolyAllocator::shrink` (allocator.rs `Allocator` impl). -/
def PolyAllocator.shrink {Traits A : Type} (h : PolyAllocator Traits A)
    (heap : Heap A) (ptr : Ptr) (oldLayout newLayout : Layout) :
    Option (AllocResult × Heap A) :=
  h.vtable.shrink heap h.data ptr oldLayout newLayout

/-- Forget the phantom `Traits` marker: the runtime content of both handle
generations is the same (data pointer, vtable). -/
def PolyAllocator.toLocal {Traits A : Type} (h : PolyAllocator Traits A) :
    LocalPolyAllocator A :=
  ⟨h.data, h.vtable⟩

end AllocatorRs

-- Thread-safety gating (traits.rs, the constructor bounds of allocator.rs and
-- the Send wrapper of lib.rs). The auto-trait status of a concrete allocator
-- type is a pair of booleans; each constructor's `where` clause is read off as
-- a boolean requirement on those markers, and each variant's `unsafe impl`
-- markers as the guarantee it advertises.

/-- The `Send`/`Sync` auto-trait status of a concrete allocator type. -/
structure Markers where
  send : Bool
  sync : Bool
deriving DecidableEq, Repr

/-- The three thread-safety variants: `LocalTrait`, `SendTrait`,
`SendSyncTrait` (traits.rs). -/
inductive Variant where
  | localV
  | sendV
  | sendSyncV
deriving DecidableEq, Repr

/-- Thread-safety bound of `try_owned`/`owned` per variant, read off
allocator.rs lines 111-190: `LocalTrait` imposes none, `SendTrait` requires
`A: Send`, `SendSyncTrait` requires `A: Send + Sync`. (The functional bounds
`Allocator + Clone + 'a` are common to all and not thread-safety gates.) -/
def ownedRequires : Variant → Markers → Bool
  | .localV, _ => true
  | .sendV, m => m.send
  | .sendSyncV, m => m.send && m.sync

/-- Thread-safety bound of `borrowed` per variant, read off allocator.rs lines
111-190: `LocalTrait` imposes none, `SendTrait` requires `A: Sync`,
`SendSyncTrait` requires `A: Sync`. -/
def borrowedRequires : Variant → Markers → Bool
  | .localV, _ => true
  | .sendV, m => m.sync
  | .sendSyncV, m => m.sync

/-- What each variant's handle advertises, read off the `unsafe impl` blocks
(allocator.rs lines 24-30): `PolyAllocator<SendTrait>` is `Send`,
`PolyAllocator<SendSyncTrait>` is `Send + Sync`, `PolyAllocator<LocalTrait>`
is neither. -/
def advertises : Variant → Markers
  | .localV => ⟨false, false⟩
  | .sendV => ⟨true, false⟩
  | .sendSyncV => ⟨true, true⟩

/-- Bounds of the older Send wrapper `PolyAllocator<'a>` in lib.rs (lines
147-164): `owned` requires `A: Send`, `borrowed` requires `A: Send`. -/
def libSendWrapperOwnedRequires (m : Markers) : Bool := m.send

/-- `borrowed` bound of the lib.rs Send wrapper: `A: Send` (lib.rs line 160). -/
def libSendWrapperBorrowedRequires (m : Markers) : Bool := m.send

-- A concrete allocator used to instantiate the theorems: a bump-pointer stub
-- that hands out consecutive addresses while capacity remains, fails when the
-- request exceeds the remaining capacity, and records every deallocate call it
-- receives.

/-- Bump-pointer stub allocator state: next free address, remaining capacity,
and the record of deallocate calls received. -/
structure Stub where
  next : Ptr
  remaining : Nat
  deallocs : List (Ptr × Layout)
deriving DecidableEq, Repr

/-- Allocation step of the stub: bump on success, fail leaving the state
unchanged when the request exceeds the remaining capacity. -/
def Stub.alloc (s : Stub) (l : Layout) : AllocResult × Stub :=
  if l.size ≤ s.remaining then
    (.ok ⟨s.next, l.size⟩,
      { s with next := s.next + l.size, remaining := s.remaining - l.size })
  else
    (.error .allocError, s)

/-- The stub's `Allocator` impl: all allocating capabilities bump, `deallocate`
records the call. -/
def stubImpl : AllocatorImpl Stub where
  allocate := Stub.alloc
  allocateZeroed := Stub.alloc
  deallocate := fun s p l => { s with deallocs := s.deallocs ++ [(p, l)] }
  grow := fun s _ _ newL => s.alloc newL
  growZeroed := fun s _ _ newL => s.alloc newL
  shrink := fun s _ _ newL => s.alloc newL

/-- `Layout::new::<Stub>()` stand-in for the stub. -/
def stubLayout : Layout := ⟨16, 8⟩

/-- A fresh stub with 64 bytes of capacity, starting at address 100. -/
def stub0 : Stub := ⟨100, 64, []⟩

/-- A memory holding one stub value at address 1 and nothing else. -/
def heap0 : Heap Stub := fun q => if q = 1 then some stub0 else none

/-- The Owned dispatch table for the stub. -/
def stubOwnedVT : RawPolyAllocVTable Stub :=
  RawPolyAllocVTable.owned stubImpl id stubLayout

/-- A stub whose remaining capacity (8 bytes) is below `stubLayout.size`, so
every allocating capability fails on it. -/
def stubSmall : Stub := ⟨100, 8, []⟩

/-- A memory holding the small stub at address 1 and nothing else. -/
def heapSmall : Heap Stub := fun q => if q = 1 then some stubSmall else none

-- Theorems

/-- Claim C1: every capability-set call through an erased handle whose data
pointer addresses a value of `A` and whose table was built for `A` (Owned or
Borrowed) returns exactly what the same call on the wrapped `A` value returns,
including failures; the only memory change is the wrapped value's own interior
mutation written back in place. -/
theorem c1_erased_calls_agree {A : Type} (ra : AllocatorImpl A) (cl : A → A)
    (lA : Layout) (vt : RawPolyAllocVTable A)
    (hvt : vt = RawPolyAllocVTable.owned ra cl lA ∨ vt = RawPolyAllocVTable.borrowed ra)
    (heap : Heap A) (p : Ptr) (a : A) (hp : heap p = some a)
    (l oldL newL : Layout) (q : Ptr) :
    LocalPolyAllocator.allocate ⟨p, vt⟩ heap l =
        some ((ra.allocate a l).1, heap.write p (ra.allocate a l).2) ∧
    LocalPolyAllocator.allocate_zeroed ⟨p, vt⟩ heap l =
        some ((ra.allocateZeroed a l).1, heap.write p (ra.allocateZeroed a l).2) ∧
    LocalPolyAllocator.deallocate ⟨p, vt⟩ heap q l =
        some (heap.write p (ra.deallocate a q l)) ∧
    LocalPolyAllocator.grow ⟨p, vt⟩ heap q oldL newL =
        some ((ra.grow a q oldL newL).1, heap.write p (ra.grow a q oldL newL).2) ∧
    LocalPolyAllocator.grow_zeroed ⟨p, vt⟩ heap q oldL newL =
        some ((ra.growZeroed a q oldL newL).1, heap.write p (ra.growZeroed a q oldL newL).2) ∧
    LocalPolyAllocator.shrink ⟨p, vt⟩ heap q oldL newL =
        some ((ra.shrink a q oldL newL).1, heap.write p (ra.shrink a q oldL newL).2) := by
  rcases hvt with h | h <;> subst h <;> refine ⟨?_, ?_, ?_, ?_, ?_, ?_⟩ <;>
    simp [LocalPolyAllocator.allocate, LocalPolyAllocator.allocate_zeroed,
      LocalPolyAllocator.deallocate, LocalPolyAllocator.grow,
      LocalPolyAllocator.grow_zeroed, LocalPolyAllocator.shrink,
      RawPolyAllocVTable.owned, RawPolyAllocVTable.borrowed,
      fwdAllocate, fwdAllocateZeroed, fwdDeallocate, fwdGrow, fwdGrowZeroed,
      fwdShrink, hp]

/-- Witness for C1 at the bump stub, address 1, Owned table. -/
theorem c1_erased_calls_agree_witness :
    heap0 1 = some stub0 ∧
    (LocalPolyAllocator.allocate ⟨1, stubOwnedVT⟩ heap0 ⟨16, 8⟩ =
        some ((stubImpl.allocate stub0 ⟨16, 8⟩).1,
          Heap.write heap0 1 (stubImpl.allocate stub0 ⟨16, 8⟩).2) ∧
    LocalPolyAllocator.allocate_zeroed ⟨1, stubOwnedVT⟩ heap0 ⟨16, 8⟩ =
        some ((stubImpl.allocateZeroed stub0 ⟨16, 8⟩).1,
          Heap.write heap0 1 (stubImpl.allocateZeroed stub0 ⟨16, 8⟩).2) ∧
    LocalPolyAllocator.deallocate ⟨1, stubOwnedVT⟩ heap0 100 ⟨16, 8⟩ =
        some (Heap.write heap0 1 (stubImpl.deallocate stub0 100 ⟨16, 8⟩)) ∧
    LocalPolyAllocator.grow ⟨1, stubOwnedVT⟩ heap0 100 ⟨16, 8⟩ ⟨32, 8⟩ =
        some ((stubImpl.grow stub0 100 ⟨16, 8⟩ ⟨32, 8⟩).1,
          Heap.write heap0 1 (stubImpl.grow stub0 100 ⟨16, 8⟩ ⟨32, 8⟩).2) ∧
    LocalPolyAllocator.grow_zeroed ⟨1, stubOwnedVT⟩ heap0 100 ⟨16, 8⟩ ⟨32, 8⟩ =
        some ((stubImpl.growZeroed stub0 100 ⟨16, 8⟩ ⟨32, 8⟩).1,
          Heap.write heap0 1 (stubImpl.growZeroed stub0 100 ⟨16, 8⟩ ⟨32, 8⟩).2) ∧
    LocalPolyAllocator.shrink ⟨1, stubOwnedVT⟩ heap0 100 ⟨16, 8⟩ ⟨32, 8⟩ =
        some ((stubImpl.shrink stub0 100 ⟨16, 8⟩ ⟨32, 8⟩).1,
          Heap.write heap0 1 (stubImpl.shrink stub0 100 ⟨16, 8⟩ ⟨32, 8⟩).2)) :=
  ⟨rfl, c1_erased_calls_agree stubImpl id stubLayout stubOwnedVT (Or.inl rfl)
    heap0 1 stub0 rfl ⟨16, 8⟩ ⟨16, 8⟩ ⟨32, 8⟩ 100⟩

/-- Claim C4: `try_owned` first calls the allocator's own `allocate` with the
layout of `A`; on failure it returns that failure and leaves memory untouched;
on success it writes the allocator value into the obtained storage and returns
a handle made of that storage address and the Owned dispatch table for `A`. -/
theorem c4_try_owned_spec {A : Type} (ra : AllocatorImpl A) (cl : A → A)
    (lA : Layout) (heap : Heap A) (allocator : A) (r : AllocResult × A)
    (h : ra.allocate allocator lA = r) :
    LocalPolyAllocator.try_owned ra cl lA heap allocator =
      match r.1 with
      | .error e => (.error e, heap)
      | .ok blk =>
          (.ok (LocalPolyAllocator.from_raw_parts blk.ptr
              (RawPolyAllocVTable.owned ra cl lA)),
            heap.write blk.ptr r.2) := by
  subst h
  rfl

/-- Witness for C4: owned construction of the stub inside `heap0` succeeds and
places the post-allocate stub at the fresh address 100. -/
theorem c4_try_owned_spec_witness :
    stubImpl.allocate stub0 stubLayout = (.ok ⟨100, 16⟩, ⟨116, 48, []⟩) ∧
    LocalPolyAllocator.try_owned stubImpl id stubLayout heap0 stub0 =
      (.ok (LocalPolyAllocator.from_raw_parts 100
          (RawPolyAllocVTable.owned stubImpl id stubLayout)),
        Heap.write heap0 100 ⟨116, 48, []⟩) :=
  ⟨rfl, c4_try_owned_spec stubImpl id stubLayout heap0 stub0
    (.ok ⟨100, 16⟩, ⟨116, 48, []⟩) rfl⟩

/-- Claim C5: when the wrapped allocator reports failure, every fallible
capability forwarder (Owned or Borrowed table) returns that same
`AllocationFailure` verbatim, and the erasure layer mutates no storage of its
own: the only memory cell that can change is the wrapped allocator's own state
cell, written back exactly as the failed direct call left it. -/
theorem c5_failure_propagation {A : Type} (ra : AllocatorImpl A) (cl : A → A)
    (lA : Layout) (vt : RawPolyAllocVTable A)
    (hvt : vt = RawPolyAllocVTable.owned ra cl lA ∨ vt = RawPolyAllocVTable.borrowed ra)
    (heap : Heap A) (p : Ptr) (a : A) (hp : heap p = some a)
    (l oldL newL : Layout) (q : Ptr) (e : AllocError) (a1 a2 a3 a4 a5 : A)
    (h1 : ra.allocate a l = (.error e, a1))
    (h2 : ra.allocateZeroed a l = (.error e, a2))
    (h3 : ra.grow a q oldL newL = (.error e, a3))
    (h4 : ra.growZeroed a q oldL newL = (.error e, a4))
    (h5 : ra.shrink a q oldL newL = (.error e, a5)) :
    LocalPolyAllocator.allocate ⟨p, vt⟩ heap l = some (.error e, heap.write p a1) ∧
    LocalPolyAllocator.allocate_zeroed ⟨p, vt⟩ heap l = some (.error e, heap.write p a2) ∧
    LocalPolyAllocator.grow ⟨p, vt⟩ heap q oldL newL = some (.error e, heap.write p a3) ∧
    LocalPolyAllocator.grow_zeroed ⟨p, vt⟩ heap q oldL newL = some (.error e, heap.write p a4) ∧
    LocalPolyAllocator.shrink ⟨p, vt⟩ heap q oldL newL = some (.error e, heap.write p a5) ∧
    (∀ b : A, ∀ q2 : Ptr, q2 ≠ p → Heap.write heap p b q2 = heap q2) := by
  rcases hvt with h | h <;> subst h <;>
    refine ⟨?_, ?_, ?_, ?_, ?_, fun b q2 hq => Heap.write_other heap p q2 b hq⟩ <;>
    simp [LocalPolyAllocator.allocate, LocalPolyAllocator.allocate_zeroed,
      LocalPolyAllocator.grow, LocalPolyAllocator.grow_zeroed,
      LocalPolyAllocator.shrink, RawPolyAllocVTable.owned,
      RawPolyAllocVTable.borrowed, fwdAllocate, fwdAllocateZeroed, fwdGrow,
      fwdGrowZeroed, fwdShrink, hp, h1, h2, h3, h4, h5]

/-- Witness for C5: an oversized request (48 bytes against 8 remaining) fails
identically through the erased handle, and the cell at address 2 is untouched. -/
theorem c5_failure_propagation_witness :
    heapSmall 1 = some stubSmall ∧
    stubImpl.allocate stubSmall ⟨48, 8⟩ = (.error .allocError, stubSmall) ∧
    LocalPolyAllocator.allocate ⟨1, stubOwnedVT⟩ heapSmall ⟨48, 8⟩ =
      some (.error .allocError, Heap.write heapSmall 1 stubSmall) ∧
    Heap.write heapSmall 1 stubSmall 2 = heapSmall 2 :=
  ⟨rfl, rfl,
    (c5_failure_propagation stubImpl id stubLayout stubOwnedVT (Or.inl rfl)
      heapSmall 1 stubSmall rfl ⟨48, 8⟩ ⟨16, 8⟩ ⟨48, 8⟩ 100 .allocError
      stubSmall stubSmall stubSmall stubSmall stubSmall
      rfl rfl rfl rfl rfl).1,
    ((c5_failure_propagation stubImpl id stubLayout stubOwnedVT (Or.inl rfl)
      heapSmall 1 stubSmall rfl ⟨48, 8⟩ ⟨16, 8⟩ ⟨48, 8⟩ 100 .allocError
      stubSmall stubSmall stubSmall stubSmall stubSmall
      rfl rfl rfl rfl rfl).2.2.2.2.2 stubSmall 2 (by decide))⟩

/-- Claim C2 (code bug, evaluated at the failing input): `into_raw_parts` on an
Owned handle does return the (data, table) pair, but because `self` has a
`Drop` impl and is never forgotten, drop glue runs and `table.delete(data)` is
invoked during the call: the wrapped stub's storage cell is gone afterwards,
the stub received its self-deallocate, and the debug line was printed — the
destroy obligation is consumed rather than transferred. -/
theorem c2_into_raw_invokes_destroy :
    LocalPolyAllocator.into_raw_parts ⟨1, stubOwnedVT⟩ heap0 =
      some ((1, stubOwnedVT), Heap.erase heap0 1,
        some (stubImpl.deallocate stub0 1 stubLayout),
        [Event.println "Dropped allocator!"]) ∧
    Heap.erase heap0 1 1 = none ∧
    (stubImpl.deallocate stub0 1 stubLayout).deallocs = [(1, stubLayout)] :=
  ⟨rfl, rfl, rfl⟩

/-- Claim C3 (code bug, evaluated at the failing input): destroying an Owned
handle over the bump stub does move the value out, erase its storage cell and
apply exactly one self-deallocate with the layout of `A` — but it additionally
prints the leftover debug line, an observable effect the claim (and the
function's own doc comment) excludes. -/
theorem c3_destroy_prints_debug_line :
    LocalPolyAllocator.drop ⟨1, stubOwnedVT⟩ heap0 =
      some ⟨Heap.erase heap0 1, some (stubImpl.deallocate stub0 1 stubLayout),
        [Event.println "Dropped allocator!"]⟩ ∧
    (stubImpl.deallocate stub0 1 stubLayout).deallocs = [(1, stubLayout)] ∧
    [Event.println "Dropped allocator!"] ≠ ([] : List Event) :=
  ⟨rfl, rfl, by decide⟩

/-- Claim C6: for every Borrowed table, `delete` is the fixed `ref_delete`
(the same function regardless of the wrapped allocator's impl), which leaves
memory untouched, drops nothing and has no observable effect; and `clone`
returns the input address unchanged with memory untouched — no allocation, no
cloning, so the duplicate shares the referent. -/
theorem c6_borrowed_noop_delete_alias_clone {A : Type} (ra : AllocatorImpl A)
    (heap : Heap A) (p : Ptr) :
    (RawPolyAllocVTable.borrowed ra).delete = ref_delete ∧
    ref_delete heap p = some ⟨heap, none, []⟩ ∧
    (RawPolyAllocVTable.borrowed ra).clone heap p = some (.ok heap p) :=
  ⟨rfl, rfl, rfl⟩

/-- Claim C7: `default_clone` asks the pointed-to allocator's own `allocate`
for a block with the layout of `A`; on failure it diverges into
`handle_alloc_error` (the fatal out-of-memory handler — `CloneOut` has no
recoverable-failure constructor, so an `AllocationFailure` can never be
reported to the caller); on success it writes a clone of the (post-allocate)
value into the new block and returns the new address. -/
theorem c7_default_clone_spec {A : Type} (ra : AllocatorImpl A) (cl : A → A)
    (lA : Layout) (heap : Heap A) (p : Ptr) (a : A) (hp : heap p = some a)
    (r : AllocResult × A) (h : ra.allocate a lA = r) :
    default_clone ra cl lA heap p =
      some (match r.1 with
        | .error _ => CloneOut.fatalOOM lA
        | .ok blk => .ok ((heap.write p r.2).write blk.ptr (cl r.2)) blk.ptr) := by
  subst h
  simp [default_clone, hp]

/-- Witness for C7 at a failing input: duplicating the Owned handle over the
exhausted stub hits the fatal out-of-memory handler. -/
theorem c7_default_clone_spec_witness :
    heapSmall 1 = some stubSmall ∧
    stubImpl.allocate stubSmall stubLayout = (.error .allocError, stubSmall) ∧
    default_clone stubImpl id stubLayout heapSmall 1 =
      some (CloneOut.fatalOOM stubLayout) :=
  ⟨rfl, rfl, c7_default_clone_spec stubImpl id stubLayout heapSmall 1 stubSmall
    rfl (.error .allocError, stubSmall) rfl⟩

/-- Claim C8: when `try_owned` succeeds, `owned` returns exactly that handle
and memory; when `try_owned` fails, `owned` invokes
`handle_alloc_error(Layout::new::<A>())` — `OwnedOut` has no failure
constructor, so `owned` can never hand a failure value to the caller. -/
theorem c8_owned_spec {A : Type} (ra : AllocatorImpl A) (cl : A → A)
    (lA : Layout) (heap : Heap A) (allocator : A) :
    (∀ ret heap1,
      LocalPolyAllocator.try_owned ra cl lA heap allocator = (.ok ret, heap1) →
        LocalPolyAllocator.owned ra cl lA heap allocator = .ok ret heap1) ∧
    (∀ e heap1,
      LocalPolyAllocator.try_owned ra cl lA heap allocator = (.error e, heap1) →
        LocalPolyAllocator.owned ra cl lA heap allocator = .fatalOOM lA) := by
  constructor
  · intro ret heap1 h
    simp [LocalPolyAllocator.owned, h]
  · intro e heap1 h
    simp [LocalPolyAllocator.owned, h]

/-- Witness for C8 on both branches: `owned` over `heap0` succeeds like
`try_owned`; `owned` of the exhausted stub is fatal. -/
theorem c8_owned_spec_witness :
    LocalPolyAllocator.try_owned stubImpl id stubLayout heap0 stub0 =
      (.ok (LocalPolyAllocator.from_raw_parts 100
          (RawPolyAllocVTable.owned stubImpl id stubLayout)),
        Heap.write heap0 100 ⟨116, 48, []⟩) ∧
    LocalPolyAllocator.owned stubImpl id stubLayout heap0 stub0 =
      .ok (LocalPolyAllocator.from_raw_parts 100
          (RawPolyAllocVTable.owned stubImpl id stubLayout))
        (Heap.write heap0 100 ⟨116, 48, []⟩) ∧
    LocalPolyAllocator.owned stubImpl id stubLayout heapSmall stubSmall =
      .fatalOOM stubLayout :=
  ⟨rfl,
    (c8_owned_spec stubImpl id stubLayout heap0 stub0).1 _ _ rfl,
    (c8_owned_spec stubImpl id stubLayout heapSmall stubSmall).2 .allocError
      heapSmall rfl⟩

/-- Claim C9 counterexample: a Send-but-not-Sync allocator is safely
transferable to another thread, yet the Transferable variant's `borrowed`
constructor (allocator.rs line 159 requires `A: Sync`) rejects it — so the
Transferable variant does not require "exactly transferability and no more". -/
theorem c9_gating_counterexample :
    Markers.send ⟨true, false⟩ = true ∧
    borrowedRequires Variant.sendV ⟨true, false⟩ = false := by
  decide

/-- Claim C9 as amended: gating is entirely construction-time bounds. Local
accepts any allocator; Transferable's owned constructors require exactly Send
but its borrowed constructor requires Sync instead (the older lib.rs Send
wrapper requires Send for both); Shared requires Send and Sync for owned and
Sync for borrowed, so a Shared handle is only constructible over a
concurrent-access-safe allocator; each variant advertises exactly the markers
its name promises. -/
theorem c9_gating_amended (m : Markers) :
    ownedRequires Variant.localV m = true ∧
    borrowedRequires Variant.localV m = true ∧
    ownedRequires Variant.sendV m = m.send ∧
    borrowedRequires Variant.sendV m = m.sync ∧
    ownedRequires Variant.sendSyncV m = (m.send && m.sync) ∧
    borrowedRequires Variant.sendSyncV m = m.sync ∧
    (ownedRequires Variant.sendSyncV m = true → m.sync = true) ∧
    advertises Variant.localV = ⟨false, false⟩ ∧
    advertises Variant.sendV = ⟨true, false⟩ ∧
    advertises Variant.sendSyncV = ⟨true, true⟩ ∧
    libSendWrapperOwnedRequires m = m.send ∧
    libSendWrapperBorrowedRequires m = m.send := by
  obtain ⟨s, y⟩ := m
  cases s <;> cases y <;> decide

/-- Witness for C9 amended at a Send+Sync allocator, discharging the inner
implication as well. -/
theorem c9_gating_amended_witness :
    ownedRequires Variant.sendSyncV ⟨true, true⟩ = true ∧
    Markers.sync ⟨true, true⟩ = true :=
  ⟨by decide, (c9_gating_amended ⟨true, true⟩).2.2.2.2.2.2.1 (by decide)⟩

-- Correspondence between the allocator.rs outcome types and the lib.rs ones,
-- forgetting the phantom Traits marker.

/-- Forget the Traits marker of an owned-construction outcome. -/
def AllocatorRs.PolyOwnedOut.toLocal {Traits A : Type} :
    AllocatorRs.PolyOwnedOut Traits A → OwnedOut A
  | .ok h heap => .ok h.toLocal heap
  | .fatalOOM l => .fatalOOM l

/-- Forget the Traits marker of a duplication outcome. -/
def AllocatorRs.PolyCloneOut.toLocal {Traits A : Type} :
    AllocatorRs.PolyCloneOut Traits A → HandleCloneOut A
  | .ok h heap => .ok h.toLocal heap
  | .fatalOOM l => .fatalOOM l

/-- Claim C10: modulo the phantom Traits marker, the allocator.rs generation
(`PolyAllocator<'a, Traits>`) and the lib.rs generation (`LocalPolyAllocator`)
agree operation by operation: try_owned/owned/borrowed produce corresponding
handles and identical memory, drop and clone have identical effects, and the
six capability forwarders return identical results. -/
theorem c10_generations_agree {Traits A : Type} (ra : AllocatorImpl A)
    (cl : A → A) (lA : Layout) (heap : Heap A) (allocator : A) (p q : Ptr)
    (vt : RawPolyAllocVTable A) (l oldL newL : Layout) :
    ((@AllocatorRs.PolyAllocator.try_owned_internal Traits A
        ra cl lA heap allocator).1.map AllocatorRs.PolyAllocator.toLocal =
      (LocalPolyAllocator.try_owned ra cl lA heap allocator).1) ∧
    ((@AllocatorRs.PolyAllocator.try_owned_internal Traits A
        ra cl lA heap allocator).2 =
      (LocalPolyAllocator.try_owned ra cl lA heap allocator).2) ∧
    ((@AllocatorRs.PolyAllocator.owned_internal Traits A
        ra cl lA heap allocator).toLocal =
      LocalPolyAllocator.owned ra cl lA heap allocator) ∧
    ((@AllocatorRs.PolyAllocator.borrowed_internal Traits A
        ra p).toLocal = LocalPolyAllocator.borrowed ra p) ∧
    (AllocatorRs.PolyAllocator.drop (⟨p, vt⟩ : AllocatorRs.PolyAllocator Traits A) heap =
      LocalPolyAllocator.drop ⟨p, vt⟩ heap) ∧
    ((AllocatorRs.PolyAllocator.clone (⟨p, vt⟩ : AllocatorRs.PolyAllocator Traits A)
        heap).map AllocatorRs.PolyCloneOut.toLocal =
      LocalPolyAllocator.clone ⟨p, vt⟩ heap) ∧
    (AllocatorRs.PolyAllocator.allocate (⟨p, vt⟩ : AllocatorRs.PolyAllocator Traits A)
        heap l = LocalPolyAllocator.allocate ⟨p, vt⟩ heap l) ∧
    (AllocatorRs.PolyAllocator.allocate_zeroed
        (⟨p, vt⟩ : AllocatorRs.PolyAllocator Traits A) heap l =
      LocalPolyAllocator.allocate_zeroed ⟨p, vt⟩ heap l) ∧
    (AllocatorRs.PolyAllocator.deallocate
        (⟨p, vt⟩ : AllocatorRs.PolyAllocator Traits A) heap q l =
      LocalPolyAllocator.deallocate ⟨p, vt⟩ heap q l) ∧
    (AllocatorRs.PolyAllocator.grow (⟨p, vt⟩ : AllocatorRs.PolyAllocator Traits A)
        heap q oldL newL = LocalPolyAllocator.grow ⟨p, vt⟩ heap q oldL newL) ∧
    (AllocatorRs.PolyAllocator.grow_zeroed
        (⟨p, vt⟩ : AllocatorRs.PolyAllocator Traits A) heap q oldL newL =
      LocalPolyAllocator.grow_zeroed ⟨p, vt⟩ heap q oldL newL) ∧
    (AllocatorRs.PolyAllocator.shrink
        (⟨p, vt⟩ : AllocatorRs.PolyAllocator Traits A) heap q oldL newL =
      LocalPolyAllocator.shrink ⟨p, vt⟩ heap q oldL newL) := by
  refine ⟨?_, ?_, ?_, rfl, rfl, ?_, rfl, rfl, rfl, rfl, rfl, rfl⟩
  · cases h : (ra.allocate allocator lA).1 <;>
      simp [AllocatorRs.PolyAllocator.try_owned_internal,
        LocalPolyAllocator.try_owned, AllocatorRs.PolyAllocator.toLocal,
        AllocatorRs.PolyAllocator.from_raw_parts,
        LocalPolyAllocator.from_raw_parts, Except.map, h]
  · cases h : (ra.allocate allocator lA).1 <;>
      simp [AllocatorRs.PolyAllocator.try_owned_internal,
        LocalPolyAllocator.try_owned, h]
  · cases h : (ra.allocate allocator lA).1 <;>
      simp [AllocatorRs.PolyAllocator.owned_internal,
        AllocatorRs.PolyAllocator.try_owned_internal,
        LocalPolyAllocator.owned, LocalPolyAllocator.try_owned,
        AllocatorRs.PolyOwnedOut.toLocal, AllocatorRs.PolyAllocator.toLocal,
        AllocatorRs.PolyAllocator.from_raw_parts,
        LocalPolyAllocator.from_raw_parts, h]
  · cases hc : vt.clone heap p with
    | none =>
        simp [AllocatorRs.PolyAllocator.clone, LocalPolyAllocator.clone, hc]
    | some c =>
        cases c <;>
          simp [AllocatorRs.PolyAllocator.clone, LocalPolyAllocator.clone, hc,
            AllocatorRs.PolyCloneOut.toLocal, AllocatorRs.PolyAllocator.toLocal,
            AllocatorRs.PolyAllocator.from_raw_parts,
            LocalPolyAllocator.from_raw_parts]

end PolyAlloc
